import Mathlib

/-!
Shallow embedding of `src/ptrace.rs` from the pdbg repository: the
wait/classify/resume loop `handle_signal`.

The embedding works over `Int` as the type of C `int`/`uint` values.  Every
bit-level expression of the Rust source is translated to the equivalent
`Int.fdiv` / `%` ( = `Int.emod`) arithmetic:

* Rust `x & 0xff`  (low byte of a two's-complement `c_int`)  =  `x % 256`
* Rust `x & 0x7f`                                            =  `x % 128`
* Rust `x >> n`    (arithmetic right shift)                  =  `Int.fdiv x (2 ^ n)`
* Rust `y as i8`   (two's-complement truncation)             =  `(y + 128) % 256 - 128`

The OS calls made by `handle_signal` (`epoll_create`, `epoll_ctl`,
`epoll_wait`, `waitpid`, `ptrace(PTRACE_GETSIGINFO)`, `ptrace(PTRACE_CONT)`,
`close`) are abstracted by an environment `Env` that supplies each call's
result (`Except errno value`).  The model returns both the function's outcome
and the trace of OS calls and warnings it emitted, so that statements about
resumes, probes, warnings and handle release are expressible.

Control flow of the Rust `loop`: every control path of the loop body ends in
a `break`, an early `return` through the `?` operator, or the trailing
`unreachable` assertion (the body's last statement).  No path reaches the end
of the body normally and there is no `continue`, so the loop executes its
body exactly once; it is embedded as a single execution of the body
(`loopBody`).
-/

namespace Ptrace

/-- Linux signal number `SIGTRAP`. -/
def SIGTRAP : Int := 5

/-- Linux signal number `SIGSTOP`. -/
def SIGSTOP : Int := 19

/-- Linux signal number `SIGTSTP`. -/
def SIGTSTP : Int := 20

/-- Linux signal number `SIGTTIN`. -/
def SIGTTIN : Int := 21

/-- Linux signal number `SIGTTOU`. -/
def SIGTTOU : Int := 22

/-- Linux errno `EINVAL`. -/
def EINVAL : Int := 22

/-- `PTRACE_EVENT_FORK`. -/
def PTRACE_EVENT_FORK : Int := 1

/-- `PTRACE_EVENT_VFORK`. -/
def PTRACE_EVENT_VFORK : Int := 2

/-- `PTRACE_EVENT_CLONE`. -/
def PTRACE_EVENT_CLONE : Int := 3

/-- `PTRACE_EVENT_EXEC`. -/
def PTRACE_EVENT_EXEC : Int := 4

/-- `PTRACE_EVENT_VFORK_DONE`. -/
def PTRACE_EVENT_VFORK_DONE : Int := 5

/-- `PTRACE_EVENT_EXIT`. -/
def PTRACE_EVENT_EXIT : Int := 6

/-- `PTRACE_EVENT_SECCOMP`. -/
def PTRACE_EVENT_SECCOMP : Int := 7

/-- `PTRACE_EVENT_STOP`. -/
def PTRACE_EVENT_STOP : Int := 128

/-- `PTRACE_O_TRACESYSGOOD`. -/
def PTRACE_O_TRACESYSGOOD : Int := 1

/-- `PTRACE_O_TRACEFORK`. -/
def PTRACE_O_TRACEFORK : Int := 2

/-- `PTRACE_O_TRACEVFORK` (defined by Linux; never referenced by the source,
which gates the vfork event with `PTRACE_O_TRACEFORK`). -/
def PTRACE_O_TRACEVFORK : Int := 4

/-- `PTRACE_O_TRACECLONE`. -/
def PTRACE_O_TRACECLONE : Int := 8

/-- `PTRACE_O_TRACEEXEC`. -/
def PTRACE_O_TRACEEXEC : Int := 16

/-- `PTRACE_O_TRACEVFORKDONE`. -/
def PTRACE_O_TRACEVFORKDONE : Int := 32

/-- `PTRACE_O_TRACEEXIT`. -/
def PTRACE_O_TRACEEXIT : Int := 64

/-- `PTRACE_O_TRACESECCOMP`. -/
def PTRACE_O_TRACESECCOMP : Int := 128

/-- `PTRACE_SEIZE` request number (0x4206). -/
def PTRACE_SEIZE : Int := 16902

/-- `PTRACE_ATTACH` request number. -/
def PTRACE_ATTACH : Int := 16

/-- The source's local constant `SIGTRAP_SYSCALL = SIGTRAP | 0x80` = 133. -/
def SIGTRAP_SYSCALL : Int := 133

/-- Rust arithmetic right shift `x >> n` on a two's-complement integer:
floor division by `2 ^ n`. -/
def shr (x : Int) (n : Nat) : Int := Int.fdiv x (2 ^ n)

/-- Rust `y as i8`: two's-complement truncation to 8 bits. -/
def asI8 (y : Int) : Int := (y + 128) % 256 - 128

/-- Models `options & mask != 0` of the source for the single-bit option
masks `PTRACE_O_*` (each a power of two): bit test of the two's-complement
representation of `options`. -/
def hasOpt (options mask : Int) : Bool := (Int.fdiv options mask) % 2 == 1

/-- libc crate `WIFSTOPPED(status) = (status & 0xff) == 0x7f`. -/
def WIFSTOPPED (status : Int) : Bool := status % 256 == 127

/-- libc crate `WSTOPSIG(status) = (status >> 8) & 0xff`. -/
def WSTOPSIG (status : Int) : Int := (shr status 8) % 256

/-- libc crate `WIFEXITED(status) = (status & 0x7f) == 0`. -/
def WIFEXITED (status : Int) : Bool := status % 128 == 0

/-- libc crate `WIFSIGNALED(status) = ((status & 0x7f) + 1) as i8 >= 2`. -/
def WIFSIGNALED (status : Int) : Bool := decide (2 ≤ asI8 (status % 128 + 1))

/-- Observable events of one invocation of `handle_signal`: the OS calls it
issues (in order) and the warnings it logs.  `contEv sig` records the signal
argument passed to `ptrace(PTRACE_CONT, pid, 0, sig)`; `warnEv sig` records
the `warn!("unknown event (signal = ...)")` log line. -/
inductive Event where
  | epollCreateEv
  | epollCtlEv
  | epollWaitEv
  | waitpidEv
  | getSiginfoEv
  | contEv (sig : Int)
  | epollCloseEv
  | warnEv (sig : Int)
deriving DecidableEq

/-- Results of the OS calls that `handle_signal` may issue, supplied by the
surrounding system.  `Except.error e` is a call failing with errno `e`
(the `-1` / `Error::last_os_error()` path of the source helpers);
`Except.ok` is success.  `epoll_create` yields the epoll fd, `waitpid`
yields the raw wait status. -/
structure Env where
  epoll_create : Except Int Int
  epoll_ctl : Except Int Unit
  epoll_wait : Except Int Unit
  waitpid : Except Int Int
  get_siginfo : Except Int Unit
  cont : Except Int Unit
  epoll_close : Except Int Unit

/-- Outcome of a match on an extended-event code in the source: `deliver` is
a plain `break Ok(status)` arm, `warnDeliver` is the catch-all
`warn! ; break Ok(status)` arm, `fallthru` is the `0 => {}` arm that falls
out of the match. -/
inductive TrapDecision where
  | deliver
  | warnDeliver
  | fallthru
deriving DecidableEq

/-- The inner `match signal >> 16 { ... }` of the `SIGTRAP` arm
(src/ptrace.rs lines 106-145), arms in source order.  Note the scrutinee is
`signal >> 16` — a shift of the already-masked stop signal — and that the
`PTRACE_EVENT_VFORK` arm's guard tests `PTRACE_O_TRACEFORK`. -/
def trapEventDecision (attach options signal : Int) : TrapDecision :=
  let ev := shr signal 16
  if ev == PTRACE_EVENT_VFORK && hasOpt options PTRACE_O_TRACEFORK then .deliver
  else if ev == PTRACE_EVENT_FORK && hasOpt options PTRACE_O_TRACEFORK then .deliver
  else if ev == PTRACE_EVENT_CLONE && hasOpt options PTRACE_O_TRACECLONE then .deliver
  else if ev == PTRACE_EVENT_VFORK_DONE && hasOpt options PTRACE_O_TRACEVFORKDONE then .deliver
  else if ev == PTRACE_EVENT_EXEC && hasOpt options PTRACE_O_TRACEEXEC then .deliver
  else if ev == PTRACE_EVENT_EXIT && hasOpt options PTRACE_O_TRACEEXIT then .deliver
  else if ev == PTRACE_EVENT_STOP && attach == PTRACE_SEIZE then .deliver
  else if ev == PTRACE_EVENT_SECCOMP && hasOpt options PTRACE_O_TRACESECCOMP then .deliver
  else if ev == 0 then .fallthru
  else .warnDeliver

/-- The inner `match status >> 16 { ... }` of the job-control-signal arm
(src/ptrace.rs lines 152-163), arms in source order: the `PTRACE_EVENT_STOP`
arm is guarded by `attach == PTRACE_SEIZE`; a pattern that matches neither
that arm nor `0` lands in the catch-all `warn! ; break Ok(status)` arm. -/
def groupStopEventDecision (attach status : Int) : TrapDecision :=
  let ev := shr status 16
  if ev == PTRACE_EVENT_STOP && attach == PTRACE_SEIZE then .deliver
  else if ev == 0 then .fallthru
  else .warnDeliver

/-- How one execution of the body of the `loop` in `handle_signal` ends.
Every control path of the body ends in a `break Ok(status)` (`brkOk`), a
`break Err(err)` (`brkErr`), an early `return` through the `?` operator
(`earlyRet`), or the body's trailing `unreachable` assertion (`panic`); no
path completes the body normally, so the loop never iterates twice. -/
inductive BodyStep where
  | brkOk (status : Int)
  | brkErr (errno : Int)
  | earlyRet (errno : Int)
  | panic
deriving DecidableEq

/-- One execution of the loop body of `handle_signal`
(src/ptrace.rs lines 95-187), together with the trace of OS calls and
warnings it emits.  `epoll_ctl` and `epoll_wait` run first, then `waitpid`;
a stopped status is classified by the `match signal { ... }`; the paths that
fall out of that match reach `cont(pid, signal)?` and then the final
`WIFEXITED || WIFSIGNALED` check followed by the `unreachable` assertion. -/
def loopBody (attach options : Int) (env : Env) : BodyStep × List Event :=
  match env.epoll_ctl with
  | .error e => (.earlyRet e, [.epollCtlEv])
  | .ok _ =>
    match env.epoll_wait with
    | .error e => (.earlyRet e, [.epollCtlEv, .epollWaitEv])
    | .ok _ =>
      match env.waitpid with
      | .error e => (.earlyRet e, [.epollCtlEv, .epollWaitEv, .waitpidEv])
      | .ok status =>
        let pre : List Event := [.epollCtlEv, .epollWaitEv, .waitpidEv]
        if WIFSTOPPED status then
          let signal := WSTOPSIG status
          let fallRest : List Event → BodyStep × List Event := fun tr =>
            match env.cont with
            | .error e => (.earlyRet e, tr ++ [.contEv signal])
            | .ok _ =>
              if WIFEXITED status || WIFSIGNALED status then
                (.brkOk status, tr ++ [.contEv signal])
              else
                (.panic, tr ++ [.contEv signal])
          if signal == SIGTRAP then
            match trapEventDecision attach options signal with
            | .deliver => (.brkOk status, pre)
            | .warnDeliver => (.brkOk status, pre ++ [.warnEv signal])
            | .fallthru => fallRest pre
          else if signal == SIGTRAP_SYSCALL && hasOpt options PTRACE_O_TRACESYSGOOD then
            (.brkOk status, pre)
          else if signal == SIGSTOP || signal == SIGTSTP ||
              signal == SIGTTIN || signal == SIGTTOU then
            match groupStopEventDecision attach status with
            | .deliver => (.brkOk status, pre)
            | .warnDeliver => (.brkOk status, pre ++ [.warnEv signal])
            | .fallthru =>
              if attach ≠ PTRACE_SEIZE then
                match env.get_siginfo with
                | .error e =>
                  if e == EINVAL then (.brkOk status, pre ++ [.getSiginfoEv])
                  else (.brkErr e, pre ++ [.getSiginfoEv])
                | .ok _ => fallRest (pre ++ [.getSiginfoEv])
              else
                fallRest pre
          else
            fallRest pre
        else
          if WIFEXITED status || WIFSIGNALED status then
            (.brkOk status, pre)
          else
            (.panic, pre)

/-- How an invocation of `handle_signal` ends: a normal `Ok(status)` return,
an `Err` return carrying an errno, or the `unreachable` assertion firing. -/
inductive Outcome where
  | ok (status : Int)
  | err (errno : Int)
  | panicked
deriving DecidableEq

/-- `handle_signal(pid, pidfd, timeout, attach, options)` of src/ptrace.rs:
`epoll_create` first (its failure returns before anything else); then the
loop body; a `break` value flows to `epoll_close(epfd)?` and is returned
(`epoll_close` failure replaces it with the close error), while an early
`return` through `?` inside the loop skips `epoll_close` entirely.
`pid`, `pidfd` and `timeout` are only forwarded to the OS calls, whose
results `env` supplies. -/
def handle_signal (pid pidfd timeout attach options : Int) (env : Env) :
    Outcome × List Event :=
  match env.epoll_create with
  | .error e => (.err e, [.epollCreateEv])
  | .ok _ =>
    match loopBody attach options env with
    | (.earlyRet e, tr) => (.err e, .epollCreateEv :: tr)
    | (.panic, tr) => (.panicked, .epollCreateEv :: tr)
    | (.brkOk s, tr) =>
      match env.epoll_close with
      | .error e => (.err e, .epollCreateEv :: (tr ++ [.epollCloseEv]))
      | .ok _ => (.ok s, .epollCreateEv :: (tr ++ [.epollCloseEv]))
    | (.brkErr e0, tr) =>
      match env.epoll_close with
      | .error e => (.err e, .epollCreateEv :: (tr ++ [.epollCloseEv]))
      | .ok _ => (.err e0, .epollCreateEv :: (tr ++ [.epollCloseEv]))

/-- An environment in which every OS call succeeds, the epoll fd is 3 and
`waitpid` reports the given raw status. -/
def mkEnv (status : Int) : Env :=
  { epoll_create := .ok 3
    epoll_ctl := .ok ()
    epoll_wait := .ok ()
    waitpid := .ok status
    get_siginfo := .ok ()
    cont := .ok ()
    epoll_close := .ok () }

/-- A status that satisfies `WIFEXITED` or `WIFSIGNALED` does not satisfy
`WIFSTOPPED` (the encodings are disjoint). -/
theorem not_stopped_of_exit_flags (s : Int)
    (h : WIFEXITED s = true ∨ WIFSIGNALED s = true) : WIFSTOPPED s = false := by
  simp only [WIFSTOPPED, beq_eq_false_iff_ne, ne_eq]
  rcases h with h | h
  · simp only [WIFEXITED, beq_iff_eq] at h
    omega
  · simp only [WIFSIGNALED, asI8, decide_eq_true_eq] at h
    omega

/-- A status that satisfies `WIFSTOPPED` satisfies neither `WIFEXITED` nor
`WIFSIGNALED`. -/
theorem no_exit_flags_of_stopped (s : Int) (h : WIFSTOPPED s = true) :
    WIFEXITED s = false ∧ WIFSIGNALED s = false := by
  simp only [WIFSTOPPED, beq_iff_eq] at h
  constructor
  · simp only [WIFEXITED, beq_eq_false_iff_ne, ne_eq]
    omega
  · simp only [WIFSIGNALED, asI8, decide_eq_false_iff_not, not_le]
    omega

/-- Claim C9: if the retrieved status decodes as exited-normally or
terminated-by-signal, `handle_signal` returns `Ok` with that status as-is and
issues no resume after retrieving it (the trace holds no `contEv`); a raw
status that is neither stopped, exited, nor terminated-by-signal reaches the
`unreachable` assertion (fail fast) instead of being handled. -/
theorem c9_exit_paths_terminal (pid pidfd timeout attach options status fd : Int)
    (env : Env)
    (h1 : env.epoll_create = .ok fd) (h2 : env.epoll_ctl = .ok ())
    (h3 : env.epoll_wait = .ok ()) (h4 : env.waitpid = .ok status)
    (h5 : env.epoll_close = .ok ()) :
    ((WIFEXITED status = true ∨ WIFSIGNALED status = true) →
      handle_signal pid pidfd timeout attach options env =
        (.ok status,
          [.epollCreateEv, .epollCtlEv, .epollWaitEv, .waitpidEv, .epollCloseEv])) ∧
    (WIFSTOPPED status = false → WIFEXITED status = false →
      WIFSIGNALED status = false →
      handle_signal pid pidfd timeout attach options env =
        (.panicked, [.epollCreateEv, .epollCtlEv, .epollWaitEv, .waitpidEv])) := by
  constructor
  · intro hex
    have hstop := not_stopped_of_exit_flags status hex
    have hor : (WIFEXITED status || WIFSIGNALED status) = true := by
      rcases hex with h | h <;> simp [h]
    simp [handle_signal, loopBody, h1, h2, h3, h4, h5, hstop, hor]
  · intro hs he hg
    simp [handle_signal, loopBody, h1, h2, h3, h4, hs, he, hg]

/-- Witness for C9: the exited status `0` (exit code 0) is delivered as-is
with no resume in the trace. -/
theorem c9_exit_paths_terminal_witness :
    handle_signal 100 7 50 PTRACE_SEIZE 0 (mkEnv 0) =
      (.ok 0, [.epollCreateEv, .epollCtlEv, .epollWaitEv, .waitpidEv, .epollCloseEv]) :=
  (c9_exit_paths_terminal 100 7 50 PTRACE_SEIZE 0 0 3 (mkEnv 0)
    rfl rfl rfl rfl rfl).1 (Or.inl (by decide))

/-- Claim C10: a stop whose stop signal is `SIGTRAP | 0x80` (133) with
`PTRACE_O_TRACESYSGOOD` disabled is not delivered: the fall-through resume
passes the raw value 133 as the signal argument of `cont`, neither stripped
back to `SIGTRAP` (5) nor suppressed to 0 (and the body then reaches the
`unreachable` assertion). -/
theorem c10_sysgood_disabled_forwards_raw
    (pid pidfd timeout attach options status fd : Int) (env : Env)
    (h1 : env.epoll_create = .ok fd) (h2 : env.epoll_ctl = .ok ())
    (h3 : env.epoll_wait = .ok ()) (h4 : env.waitpid = .ok status)
    (hstop : WIFSTOPPED status = true)
    (hsig : WSTOPSIG status = SIGTRAP_SYSCALL)
    (hopt : hasOpt options PTRACE_O_TRACESYSGOOD = false)
    (hcont : env.cont = .ok ()) :
    handle_signal pid pidfd timeout attach options env =
      (.panicked,
        [.epollCreateEv, .epollCtlEv, .epollWaitEv, .waitpidEv, .contEv 133]) ∧
    Event.contEv SIGTRAP ∉ (handle_signal pid pidfd timeout attach options env).2 ∧
    Event.contEv 0 ∉ (handle_signal pid pidfd timeout attach options env).2 := by
  obtain ⟨he, hg⟩ := no_exit_flags_of_stopped status hstop
  have hmain : handle_signal pid pidfd timeout attach options env =
      (.panicked,
        [.epollCreateEv, .epollCtlEv, .epollWaitEv, .waitpidEv, .contEv 133]) := by
    simp [handle_signal, loopBody, h1, h2, h3, h4, hstop, hsig, hopt, hcont, he, hg,
      SIGTRAP_SYSCALL, SIGTRAP, SIGSTOP, SIGTSTP, SIGTTIN, SIGTTOU]
  refine ⟨hmain, ?_, ?_⟩ <;> rw [hmain] <;> decide

/-- Witness for C10: a concrete syscall-marker stop (status `0x857f`) with
only exec-tracing enabled is resumed with signal argument 133. -/
theorem c10_sysgood_disabled_forwards_raw_witness :
    handle_signal 100 7 50 PTRACE_SEIZE PTRACE_O_TRACEEXEC (mkEnv 34175) =
      (.panicked,
        [.epollCreateEv, .epollCtlEv, .epollWaitEv, .waitpidEv, .contEv 133]) :=
  (c10_sysgood_disabled_forwards_raw 100 7 50 PTRACE_SEIZE PTRACE_O_TRACEEXEC
    34175 3 (mkEnv 34175) rfl rfl rfl rfl (by decide) (by decide) (by decide) rfl).1

/-- Claim C5 (amended): a job-control stop under attach mode `PTRACE_ATTACH`
with zero event-code bits whose siginfo probe succeeds is resumed with the
original job-control stop signal re-forwarded as the `cont` signal argument,
not with signal argument 0. -/
theorem c5_group_stop_resumes_original_signal
    (pid pidfd timeout options status fd : Int) (env : Env)
    (h1 : env.epoll_create = .ok fd) (h2 : env.epoll_ctl = .ok ())
    (h3 : env.epoll_wait = .ok ()) (h4 : env.waitpid = .ok status)
    (hstop : WIFSTOPPED status = true)
    (hsig : WSTOPSIG status = SIGSTOP ∨ WSTOPSIG status = SIGTSTP ∨
      WSTOPSIG status = SIGTTIN ∨ WSTOPSIG status = SIGTTOU)
    (hev : shr status 16 = 0)
    (hprobe : env.get_siginfo = .ok ()) :
    Event.contEv (WSTOPSIG status) ∈
      (handle_signal pid pidfd timeout PTRACE_ATTACH options env).2 ∧
    Event.contEv 0 ∉
      (handle_signal pid pidfd timeout PTRACE_ATTACH options env).2 := by
  obtain ⟨he, hg⟩ := no_exit_flags_of_stopped status hstop
  rcases hsig with h | h | h | h <;>
    cases hc : env.cont <;>
      simp [handle_signal, loopBody, groupStopEventDecision, h1, h2, h3, h4, hstop,
        h, hev, hprobe, hc, he, hg, SIGTRAP, SIGSTOP, SIGTSTP, SIGTTIN, SIGTTOU,
        SIGTRAP_SYSCALL, PTRACE_ATTACH, PTRACE_SEIZE, PTRACE_EVENT_STOP]

/-- Witness for C5: a concrete genuine `SIGSTOP` job-control stop
(status `0x137f`) under `PTRACE_ATTACH` is resumed with signal argument 19,
and never with 0. -/
theorem c5_group_stop_resumes_original_signal_witness :
    Event.contEv 19 ∈ (handle_signal 100 7 50 PTRACE_ATTACH 0 (mkEnv 4991)).2 ∧
    Event.contEv 0 ∉ (handle_signal 100 7 50 PTRACE_ATTACH 0 (mkEnv 4991)).2 := by
  have h := c5_group_stop_resumes_original_signal 100 7 50 0 4991 3 (mkEnv 4991)
    rfl rfl rfl rfl (by decide) (Or.inl (by decide)) (by decide) rfl
  exact ⟨by simpa using h.1, h.2⟩

/-- Claim C6: during group-stop disambiguation under `PTRACE_ATTACH`, a
siginfo probe failing with `EINVAL` makes `handle_signal` return `Ok` with
the already-captured wait status (terminal deliver, no propagated error),
and a probe failing with any other errno makes it return that error. -/
theorem c6_probe_error_handling
    (pid pidfd timeout options status fd : Int) (env : Env)
    (h1 : env.epoll_create = .ok fd) (h2 : env.epoll_ctl = .ok ())
    (h3 : env.epoll_wait = .ok ()) (h4 : env.waitpid = .ok status)
    (h5 : env.epoll_close = .ok ())
    (hstop : WIFSTOPPED status = true)
    (hsig : WSTOPSIG status = SIGSTOP ∨ WSTOPSIG status = SIGTSTP ∨
      WSTOPSIG status = SIGTTIN ∨ WSTOPSIG status = SIGTTOU)
    (hev : shr status 16 = 0) :
    (env.get_siginfo = .error EINVAL →
      handle_signal pid pidfd timeout PTRACE_ATTACH options env =
        (.ok status, [.epollCreateEv, .epollCtlEv, .epollWaitEv, .waitpidEv,
          .getSiginfoEv, .epollCloseEv])) ∧
    (∀ e : Int, e ≠ EINVAL → env.get_siginfo = .error e →
      handle_signal pid pidfd timeout PTRACE_ATTACH options env =
        (.err e, [.epollCreateEv, .epollCtlEv, .epollWaitEv, .waitpidEv,
          .getSiginfoEv, .epollCloseEv])) := by
  constructor
  · intro hp
    rcases hsig with h | h | h | h <;>
      simp [handle_signal, loopBody, groupStopEventDecision, h1, h2, h3, h4, h5,
        hstop, h, hev, hp, SIGTRAP, SIGSTOP, SIGTSTP, SIGTTIN, SIGTTOU,
        SIGTRAP_SYSCALL, PTRACE_ATTACH, PTRACE_SEIZE, PTRACE_EVENT_STOP, EINVAL]
  · intro e hne hp
    rw [show EINVAL = 22 from rfl] at hne
    rcases hsig with h | h | h | h <;>
      simp [handle_signal, loopBody, groupStopEventDecision, h1, h2, h3, h4, h5,
        hstop, h, hev, hp, hne, SIGTRAP, SIGSTOP, SIGTSTP, SIGTTIN, SIGTTOU,
        SIGTRAP_SYSCALL, PTRACE_ATTACH, PTRACE_SEIZE, PTRACE_EVENT_STOP, EINVAL]

/-- Witness for C6: with the probe failing with `EINVAL` (22) the captured
`SIGSTOP`-stop status `0x137f` is returned as `Ok`; with the probe failing
with `ESRCH` (3) the error is propagated. -/
theorem c6_probe_error_handling_witness :
    handle_signal 100 7 50 PTRACE_ATTACH 0
        { mkEnv 4991 with get_siginfo := .error 22 } =
      (.ok 4991, [.epollCreateEv, .epollCtlEv, .epollWaitEv, .waitpidEv,
        .getSiginfoEv, .epollCloseEv]) ∧
    handle_signal 100 7 50 PTRACE_ATTACH 0
        { mkEnv 4991 with get_siginfo := .error 3 } =
      (.err 3, [.epollCreateEv, .epollCtlEv, .epollWaitEv, .waitpidEv,
        .getSiginfoEv, .epollCloseEv]) :=
  ⟨(c6_probe_error_handling 100 7 50 0 4991 3
      { mkEnv 4991 with get_siginfo := .error 22 }
      rfl rfl rfl rfl rfl (by decide) (Or.inl (by decide)) (by decide)).1 rfl,
   (c6_probe_error_handling 100 7 50 0 4991 3
      { mkEnv 4991 with get_siginfo := .error 3 }
      rfl rfl rfl rfl rfl (by decide) (Or.inl (by decide)) (by decide)).2
     3 (by decide) rfl⟩

/-- Claim C7 (amended): a job-control stop whose event-code bits equal the
group-stop marker (`PTRACE_EVENT_STOP`) is always delivered under attach
mode `PTRACE_SEIZE`; under `PTRACE_ATTACH` the same raw bits land in the
catch-all unknown-event arm and are delivered directly with a warning — the
siginfo probe is never invoked for them. -/
theorem c7_group_stop_marker_decision
    (pid pidfd timeout options status fd : Int) (env : Env)
    (h1 : env.epoll_create = .ok fd) (h2 : env.epoll_ctl = .ok ())
    (h3 : env.epoll_wait = .ok ()) (h4 : env.waitpid = .ok status)
    (h5 : env.epoll_close = .ok ())
    (hstop : WIFSTOPPED status = true)
    (hsig : WSTOPSIG status = SIGSTOP ∨ WSTOPSIG status = SIGTSTP ∨
      WSTOPSIG status = SIGTTIN ∨ WSTOPSIG status = SIGTTOU)
    (hev : shr status 16 = PTRACE_EVENT_STOP) :
    handle_signal pid pidfd timeout PTRACE_SEIZE options env =
      (.ok status,
        [.epollCreateEv, .epollCtlEv, .epollWaitEv, .waitpidEv, .epollCloseEv]) ∧
    handle_signal pid pidfd timeout PTRACE_ATTACH options env =
      (.ok status, [.epollCreateEv, .epollCtlEv, .epollWaitEv, .waitpidEv,
        .warnEv (WSTOPSIG status), .epollCloseEv]) := by
  rw [show PTRACE_EVENT_STOP = 128 from rfl] at hev
  constructor <;>
    rcases hsig with h | h | h | h <;>
      simp [handle_signal, loopBody, groupStopEventDecision, h1, h2, h3, h4, h5,
        hstop, h, hev, SIGTRAP, SIGSTOP, SIGTSTP, SIGTTIN, SIGTTOU,
        SIGTRAP_SYSCALL, PTRACE_ATTACH, PTRACE_SEIZE, PTRACE_EVENT_STOP]

/-- Witness for C7 (amended): the concrete `SIGSTOP` group-stop status with
marker bits (`0x80137f`) is delivered under Seize without a warning, and
under Attach with the unknown-event warning and no probe call. -/
theorem c7_group_stop_marker_decision_witness :
    handle_signal 100 7 50 PTRACE_SEIZE 0 (mkEnv 8393599) =
      (.ok 8393599,
        [.epollCreateEv, .epollCtlEv, .epollWaitEv, .waitpidEv, .epollCloseEv]) ∧
    handle_signal 100 7 50 PTRACE_ATTACH 0 (mkEnv 8393599) =
      (.ok 8393599, [.epollCreateEv, .epollCtlEv, .epollWaitEv, .waitpidEv,
        .warnEv 19, .epollCloseEv]) := by
  have h := c7_group_stop_marker_decision 100 7 50 0 8393599 3 (mkEnv 8393599)
    rfl rfl rfl rfl rfl (by decide) (Or.inl (by decide)) (by decide)
  exact ⟨h.1, by simpa using h.2⟩

/-- Counterexample to C5 as stated: for the genuine `SIGSTOP` job-control
stop `0x137f` under `PTRACE_ATTACH` with a succeeding siginfo probe, the
continuation is issued with signal argument 19 (the original job-control
signal), and a continuation with signal argument 0 is never issued. -/
theorem c5_group_stop_resume_counterexample :
    Event.contEv 0 ∉ (handle_signal 100 7 50 PTRACE_ATTACH 0 (mkEnv 4991)).2 ∧
    Event.contEv 19 ∈ (handle_signal 100 7 50 PTRACE_ATTACH 0 (mkEnv 4991)).2 := by
  decide

/-- Counterexample to C7 as stated: a `SIGSTOP` stop carrying the group-stop
marker in its event-code bits (status `0x80137f`) under `PTRACE_ATTACH` is
delivered directly (`Ok` with the status) and the siginfo probe is never
invoked, contradicting "the same raw bits ... must fall into the
probe-disambiguation path rather than being delivered directly". -/
theorem c7_group_stop_marker_counterexample :
    (handle_signal 100 7 50 PTRACE_ATTACH 0 (mkEnv 8393599)).1 = .ok 8393599 ∧
    Event.getSiginfoEv ∉ (handle_signal 100 7 50 PTRACE_ATTACH 0 (mkEnv 8393599)).2 := by
  decide

/-- Claim C1, evaluated at a failing input: for a `SIGINT` stop (status
`0x27f`) classified as resume, with every OS call succeeding, `handle_signal`
issues the continuation and then hits the `unreachable` assertion — the
trace shows exactly one `waitpid` and no re-entry into the wait step after
the resume, contradicting the invariant that a resume is always followed by
another wait. -/
theorem c1_resume_reaches_unreachable :
    handle_signal 100 7 50 PTRACE_SEIZE 0 (mkEnv 639) =
      (.panicked,
        [.epollCreateEv, .epollCtlEv, .epollWaitEv, .waitpidEv, .contEv 2]) := by
  decide

/-- Claim C2, evaluated at a failing input: the extended-event scrutinee is
`signal >> 16` of the already-masked stop signal, which is 0 for every
`SIGTRAP` stop no matter which options are enabled (first conjunct, with all
eight option bits set), so the Exec event (status `0x4057f`, bits 16+ hold
code 4) with exec-tracing enabled is not delivered: the stop is resumed with
signal 5 and the body then hits the `unreachable` assertion. -/
theorem c2_exec_event_not_delivered :
    trapEventDecision PTRACE_SEIZE 255 SIGTRAP = .fallthru ∧
    trapEventDecision PTRACE_ATTACH 255 SIGTRAP = .fallthru ∧
    handle_signal 100 7 50 PTRACE_SEIZE PTRACE_O_TRACEEXEC (mkEnv 263551) =
      (.panicked,
        [.epollCreateEv, .epollCtlEv, .epollWaitEv, .waitpidEv, .contEv 5]) := by
  decide

/-- Claim C3, evaluated at a failing input: a trace-trap stop carrying the
Vfork event code (status `0x2057f`) with vfork-tracing
(`PTRACE_O_TRACEVFORK`) enabled is not delivered but resumed (first
conjunct).  Moreover, even when the match scrutinee actually carries the
Vfork code, the arm's guard tests the fork-tracing bit: with only
`PTRACE_O_TRACEVFORK` set the code lands in the unknown-event arm, and with
only `PTRACE_O_TRACEFORK` set it delivers (second and third conjuncts). -/
theorem c3_vfork_event_not_delivered :
    handle_signal 100 7 50 PTRACE_SEIZE PTRACE_O_TRACEVFORK (mkEnv 132479) =
      (.panicked,
        [.epollCreateEv, .epollCtlEv, .epollWaitEv, .waitpidEv, .contEv 5]) ∧
    trapEventDecision PTRACE_SEIZE PTRACE_O_TRACEVFORK
      (PTRACE_EVENT_VFORK * 65536) = .warnDeliver ∧
    trapEventDecision PTRACE_SEIZE PTRACE_O_TRACEFORK
      (PTRACE_EVENT_VFORK * 65536) = .deliver := by
  decide

/-- Claim C4, evaluated at failing inputs: when `epoll_ctl` fails (errno 9)
the function returns the error without ever issuing the close of the epoll
handle, and likewise when the resume call fails (errno 3) after a
fall-through classification — the `?` early returns skip `epoll_close`. -/
theorem c4_epoll_fd_leaked_on_error_paths :
    (handle_signal 100 7 50 PTRACE_SEIZE 0 { mkEnv 0 with epoll_ctl := .error 9 } =
        (.err 9, [.epollCreateEv, .epollCtlEv]) ∧
      Event.epollCloseEv ∉
        (handle_signal 100 7 50 PTRACE_SEIZE 0
          { mkEnv 0 with epoll_ctl := .error 9 }).2) ∧
    (handle_signal 100 7 50 PTRACE_SEIZE 0 { mkEnv 639 with cont := .error 3 } =
        (.err 3,
          [.epollCreateEv, .epollCtlEv, .epollWaitEv, .waitpidEv, .contEv 2]) ∧
      Event.epollCloseEv ∉
        (handle_signal 100 7 50 PTRACE_SEIZE 0
          { mkEnv 639 with cont := .error 3 }).2) := by
  decide

/-- Claim C8, evaluated at a failing input: a `SIGTRAP` stop whose bits 16+
hold the unrecognized event code 9 (status `0x9057f`) is not logged and not
delivered — because the inner match scrutinizes `signal >> 16` (always 0),
the stop falls through, is resumed with signal 5 with no warning emitted,
and the body then hits the `unreachable` assertion.  (The job-control arm,
whose scrutinee is `status >> 16`, does warn and deliver.) -/
theorem c8_unknown_trap_event_resumed :
    handle_signal 100 7 50 PTRACE_SEIZE 0 (mkEnv 591231) =
      (.panicked,
        [.epollCreateEv, .epollCtlEv, .epollWaitEv, .waitpidEv, .contEv 5]) ∧
    Event.warnEv 5 ∉ (handle_signal 100 7 50 PTRACE_SEIZE 0 (mkEnv 591231)).2 := by
  decide

end Ptrace
